import Mathlib

/-!
# Verification of `grafana_collector` report generation

Shallow embedding of `src/grafana_collector/report/report.go` and
`src/grafana_collector/config/config.go` (repository `tidb-inspect-tools`),
together with proofs about the pagination/layout algorithm (`renderPDF`,
`createHomePage`), the bounded parallel fetch stage (`renderPNGsParallel`,
`renderPNG`), the path derivation (`imgFilePath`), cleanup (`Clean`) and the
orchestration (`Generate`).

External effects (the Grafana HTTP client, the filesystem, the gopdf drawing
library) are modelled explicitly: drawing commands become a trace of draw
operations on a list of pages, filesystem and network outcomes are supplied
by oracle parameters, and the worker pool is modelled by an arbitrary
assignment of queue positions to workers plus an arbitrary drain order of the
error channel (constrained to a permutation of the errors actually produced).
Geometry values (float64 in Go) are embedded as rationals; no arithmetic is
ever performed on them by the code, they are only copied from the
configuration into drawing commands.
-/

namespace GrafanaCollector

/-- Modelled from the spec: a Grafana dashboard panel (the `grafana` package of
this repository is not under `src/`).  Spec §3: "Panel: identifier (unique
within a dashboard), display title, owning row title, kind (one of a closed
set including at least graph-like and single-value-like)".  `report.go` uses
exactly the fields `ID` (an integer, formatted with `%d`), `Title`,
`RowTitle` and the predicate `IsSingleStat()`. -/
structure Panel where
  id : Int
  title : String
  rowTitle : String
  isSingleStat : Bool
deriving DecidableEq, Repr

/-- Modelled from the spec: dashboard metadata — a title and the ordered list
of panels ("Insertion order is the page ordering; it is significant and
preserved end to end"). -/
structure Dashboard where
  title : String
  panels : List Panel
deriving DecidableEq, Repr

/-- Modelled from the spec: a time range whose two bounds each have a
human-formatted representation (`FromFormatted()` / `ToFormatted()` in
`report.go`). -/
structure TimeRange where
  fromFormatted : String
  toFormatted : String
deriving DecidableEq, Repr

/-! ## Configuration (`config/config.go`) -/

/-- `config.rect`: width/height of a rectangle (float64 in Go, embedded as ℚ). -/
structure RectCfg where
  width : ℚ
  height : ℚ
deriving DecidableEq, Repr

/-- `config.position`: the layout offsets. -/
structure PositionCfg where
  x : ℚ
  titleY1 : ℚ
  titleY2 : ℚ
  imageY1 : ℚ
  imageY2 : ℚ
  br : ℚ
deriving DecidableEq, Repr

/-- `config.grafana`: theme and timeouts.  Note there is no worker-count
field: the fetch stage's worker count is not read from configuration. -/
structure GrafanaCfg where
  theme : String
  clientTimeout : Int
  serverTimeout : Int
  retryInterval : Int
deriving DecidableEq, Repr

/-- `config.font`. -/
structure FontCfg where
  family : String
  ttf : String
  size : Int
deriving DecidableEq, Repr

/-- `config.Config`: the Go `Rect map[string]rect` is embedded as an
association list; lookup of a missing key yields the zero value, as a Go map
read does. -/
structure Config where
  grafana : GrafanaCfg
  font : FontCfg
  rect : List (String × RectCfg)
  position : PositionCfg
deriving DecidableEq, Repr

/-- Go map read `cfg.Rect[k]`: the entry, or the zero `rect` when absent. -/
def Config.rectOf (c : Config) (k : String) : RectCfg :=
  (c.rect.lookup k).getD ⟨0, 0⟩

/-- `config.defaultConf` from `config/config.go`, values verbatim. -/
def defaultConf : Config :=
  { grafana := { theme := "dark", clientTimeout := 300, serverTimeout := 300,
                 retryInterval := 10 }
    font := { family := "opensans", ttf := "OpenSans-Regular.ttf", size := 14 }
    rect := [("page", ⟨595.28, 841.89⟩), ("graph", ⟨480.0, 240.0⟩),
             ("singlestat", ⟨480.0, 93.0⟩)]
    position := { x := 50.0, titleY1 := 60.0, titleY2 := 350.0,
                  imageY1 := 80.0, imageY2 := 370.0, br := 20.0 } }

/-! ## Paths (`report.go`: `imgDirPath`, `pdfPath`, `imgFilePath`)

`filepath.Join` on nonempty relative components is `"/"`-concatenation; the
run's `tmpDir` is `filepath.Join("tmp", uuid.New())`, taken here as an
arbitrary string parameter. -/

/-- `imgDir`/`reportPdf` constants of `report.go`. -/
def imgDir : String := "images"

def reportPdf : String := "report.pdf"

/-- `rep.imgDirPath()`: `filepath.Join(rep.tmpDir, imgDir)`. -/
def imgDirPath (tmpDir : String) : String := tmpDir ++ "/" ++ imgDir

/-- `rep.pdfPath()`: `filepath.Join(rep.tmpDir, reportPdf)`. -/
def pdfPath (tmpDir : String) : String := tmpDir ++ "/" ++ reportPdf

/-- Decimal digit characters, as produced by `%d` formatting. -/
def digitChar (d : Nat) : Char :=
  Char.ofNat (48 + d)

/-- Decimal digit list of a natural number, most significant first
(model of Go's `%d` on a non-negative value). -/
def natDigits (n : Nat) : List Char :=
  if _h : n < 10 then [digitChar n]
  else natDigits (n / 10) ++ [digitChar (n % 10)]
decreasing_by exact Nat.div_lt_self (by omega) (by omega)

/-- Model of `fmt.Sprintf("%d", i)` for a Go `int`. -/
def intDecimal (i : Int) : String :=
  if i < 0 then "-" ++ ⟨natDigits (-i).toNat⟩ else ⟨natDigits i.toNat⟩

/-- `rep.imgFilePath(p)`: `fmt.Sprintf("image%d.png", p.ID)` joined under the
image directory. -/
def imgFilePath (tmpDir : String) (p : Panel) : String :=
  imgDirPath tmpDir ++ "/" ++ ("image" ++ intDecimal p.id ++ ".png")

/-! ## The gopdf drawing library, modelled as a trace of draw operations

`pdf.Cell` records text at the current cursor; `pdf.Image` records an image
placement at explicit coordinates with the given rectangle.  Pages are kept
as a list of completed pages plus the currently open page (`none` before the
first `AddPage`).  `AddPage` resets the cursor; gopdf resets it to the page
margins, modelled here as `(0, 0)`.  `Cell`'s horizontal cursor advance by
the text width is not modelled: every drawing site in `report.go` sets the
cursor explicitly (`SetX`/`SetY`/`Br`) before the next placement that depends
on it. -/

/-- One drawing command recorded on a page. -/
inductive DrawOp where
  | text (x y : ℚ) (s : String)
  | image (path : String) (x y : ℚ) (w h : ℚ)
deriving DecidableEq, Repr

/-- A finished page: its draw operations in order. -/
structure Page where
  ops : List DrawOp
deriving DecidableEq, Repr

/-- The gopdf document state. -/
structure GoPdf where
  done : List Page
  cur : Option (List DrawOp)
  curX : ℚ
  curY : ℚ
deriving DecidableEq, Repr

namespace GoPdf

/-- `pdf.Start(...)`: fresh document, no page yet. -/
def start : GoPdf := ⟨[], none, 0, 0⟩

/-- All pages of the document, the open one last. -/
def pages (pdf : GoPdf) : List Page :=
  pdf.done ++ (match pdf.cur with | some ops => [⟨ops⟩] | none => [])

/-- `pdf.AddPage()`. -/
def addPage (pdf : GoPdf) : GoPdf :=
  ⟨pdf.pages, some [], 0, 0⟩

/-- `pdf.SetX(x)`. -/
def setX (pdf : GoPdf) (x : ℚ) : GoPdf := { pdf with curX := x }

/-- `pdf.SetY(y)`. -/
def setY (pdf : GoPdf) (y : ℚ) : GoPdf := { pdf with curY := y }

/-- `pdf.Br(h)`: advance the vertical cursor. -/
def br (pdf : GoPdf) (h : ℚ) : GoPdf := { pdf with curY := pdf.curY + h }

/-- `pdf.Cell(nil, s)`: text at the current cursor, on the open page. -/
def cell (pdf : GoPdf) (s : String) : GoPdf :=
  { pdf with cur := pdf.cur.map (· ++ [DrawOp.text pdf.curX pdf.curY s]) }

/-- `pdf.Image(path, x, y, rect)`: the success of reading/embedding the image
file is decided by the oracle `ok`; on failure gopdf records nothing and
returns a non-nil error. -/
def placeImage (pdf : GoPdf) (ok : Bool) (path : String) (x y : ℚ)
    (r : RectCfg) : GoPdf × Option String :=
  if ok then
    ({ pdf with cur := pdf.cur.map (· ++ [DrawOp.image path x y r.width r.height]) },
      none)
  else (pdf, some "image error")

end GoPdf

/-! ## `renderPDF` and `createHomePage` (`report.go` lines 222–281) -/

/-- `rep.createHomePage(pdf, dash)`: add the home page and draw the dashboard
title and the formatted time range. -/
def createHomePage (cfg : Config) (t : TimeRange) (dash : Dashboard)
    (pdf : GoPdf) : GoPdf :=
  (((((pdf.addPage).setX cfg.position.x).cell ("Dashboard: " ++ dash.title)).br
      cfg.position.br).setX cfg.position.x).cell
    (t.fromFormatted ++ " to " ++ t.toFormatted)

/-- The text of the per-panel title cell:
`fmt.Sprintf("Row: %s, Panel: %s", p.RowTitle, p.Title)`. -/
def panelLabel (p : Panel) : String :=
  "Row: " ++ p.rowTitle ++ ", Panel: " ++ p.title

/-- The rectangle chosen for a panel: `rectSinglestat` when `p.IsSingleStat()`,
else `rectGraph`. -/
def panelRect (cfg : Config) (p : Panel) : RectCfg :=
  if p.isSingleStat then cfg.rectOf "singlestat" else cfg.rectOf "graph"

/-- The log line `rendering image %s to PDF error: %v`. -/
def imgErrLog (imgPath e : String) : String :=
  "rendering image " ++ imgPath ++ " to PDF error: " ++ e

/-- The log line `rendering image to PDF: %s`. -/
def imgOkLog (imgPath : String) : String :=
  "rendering image to PDF: " ++ imgPath

/-- The panel loop of `renderPDF` (lines 246–275): the zero-based `count`
alternates top band (even: `TitleY1`/`ImageY1`, no page break) and bottom band
(odd: `TitleY2`/`ImageY2`, followed by `AddPage`); the outcome of each
`pdf.Image` call is given by the oracle `imgOk` and is logged but never
fatal; `count` increments after every panel.  Returns the document state and
the log lines in order. -/
def renderPanelsLoop (cfg : Config) (tmpDir : String) (imgOk : Panel → Bool) :
    List Panel → Nat → GoPdf → List String → GoPdf × List String
  | [], _, pdf, logs => (pdf, logs)
  | p :: ps, count, pdf, logs =>
    let imgPath := imgFilePath tmpDir p
    let rect := panelRect cfg p
    let step :=
      if count % 2 = 0 then
        let pdf := ((pdf.setX cfg.position.x).setY cfg.position.titleY1).cell
          (panelLabel p)
        pdf.placeImage (imgOk p) imgPath cfg.position.x cfg.position.imageY1 rect
      else
        let pdf := ((pdf.setX cfg.position.x).setY cfg.position.titleY2).cell
          (panelLabel p)
        let r := pdf.placeImage (imgOk p) imgPath cfg.position.x
          cfg.position.imageY2 rect
        (r.1.addPage, r.2)
    let logs := logs ++
      [match step.2 with
       | some e => imgErrLog imgPath e
       | none => imgOkLog imgPath]
    renderPanelsLoop cfg tmpDir imgOk ps (count + 1) step.1 logs

/-- The document assembled by `renderPDF` up to `pdf.WritePdf` (lines
232–278, assuming `NewPDF` succeeded): home page, then the panel loop with
`count` starting at 0.  Returns the document and the per-panel log lines. -/
def renderPDFDoc (cfg : Config) (tmpDir : String) (t : TimeRange)
    (imgOk : Panel → Bool) (dash : Dashboard) : GoPdf × List String :=
  renderPanelsLoop cfg tmpDir imgOk dash.panels 0
    (createHomePage cfg t dash GoPdf.start) []

/-- `rep.renderPDF(dash)` in full: `NewPDF` may fail (font loading, oracle
`fontOk`) and the final `os.Open` of the written file may fail (oracle
`openOk`); `pdf.WritePdf` has no error channel.  On success the opened
document (the state serialized by `WritePdf`) is returned together with the
panel log lines. -/
def renderPDFModel (cfg : Config) (tmpDir : String) (t : TimeRange)
    (imgOk : Panel → Bool) (fontOk openOk : Bool) (dash : Dashboard) :
    Except String (GoPdf × List String) :=
  if fontOk then
    let r := renderPDFDoc cfg tmpDir t imgOk dash
    if openOk then .ok r else .error "open pdf file"
  else .error "new pdf file"

/-! ## Closed form of the panel loop -/

section ClosedForm

variable (cfg : Config) (tmpDir : String) (imgOk : Panel → Bool)

/-- The draw operations one panel contributes: its title cell and, when the
image placement succeeds, its image; `bottom = false` is the top band
(`TitleY1`/`ImageY1`), `bottom = true` the bottom band. -/
def bandOps (bottom : Bool) (p : Panel) : List DrawOp :=
  DrawOp.text cfg.position.x
      (if bottom then cfg.position.titleY2 else cfg.position.titleY1)
      (panelLabel p) ::
    (if imgOk p then
      [DrawOp.image (imgFilePath tmpDir p) cfg.position.x
        (if bottom then cfg.position.imageY2 else cfg.position.imageY1)
        (panelRect cfg p).width (panelRect cfg p).height]
    else [])

/-- The log line the loop produces for one panel. -/
def panelLog (p : Panel) : String :=
  if imgOk p then imgOkLog (imgFilePath tmpDir p)
  else imgErrLog (imgFilePath tmpDir p) "image error"

/-- Closed form of the pages produced by the panel loop started on an open
page already holding `cur`: panels are paired up, two bands per page; an odd
leftover panel occupies only the top band of the last page; after a complete
pair a fresh (possibly trailing empty) page is open. -/
def panelPages (cur : List DrawOp) (ps : List Panel) : List (List DrawOp) :=
  match ps with
  | [] => [cur]
  | [p] => [cur ++ bandOps cfg tmpDir imgOk false p]
  | p :: q :: ps =>
    (cur ++ bandOps cfg tmpDir imgOk false p ++ bandOps cfg tmpDir imgOk true q) ::
      panelPages [] ps

/-- Unfolding the loop at an even counter: the panel is drawn in the top band
of the open page, no page break. -/
theorem renderPanelsLoop_cons_even (p : Panel) (ps : List Panel) (c : Nat)
    (hc : c % 2 = 0) (done : List Page) (cur : List DrawOp) (x y : ℚ)
    (logs : List String) :
    renderPanelsLoop cfg tmpDir imgOk (p :: ps) c ⟨done, some cur, x, y⟩ logs =
      renderPanelsLoop cfg tmpDir imgOk ps (c + 1)
        ⟨done, some (cur ++ bandOps cfg tmpDir imgOk false p),
          cfg.position.x, cfg.position.titleY1⟩
        (logs ++ [panelLog tmpDir imgOk p]) := by
  simp only [renderPanelsLoop, hc, if_pos, GoPdf.setX, GoPdf.setY, GoPdf.cell,
    GoPdf.placeImage, bandOps, panelLog]
  cases h : imgOk p <;> simp [h, imgErrLog, imgOkLog]

/-- Unfolding the loop at an odd counter: the panel is drawn in the bottom
band, then `AddPage` closes the page. -/
theorem renderPanelsLoop_cons_odd (p : Panel) (ps : List Panel) (c : Nat)
    (hc : c % 2 = 1) (done : List Page) (cur : List DrawOp) (x y : ℚ)
    (logs : List String) :
    renderPanelsLoop cfg tmpDir imgOk (p :: ps) c ⟨done, some cur, x, y⟩ logs =
      renderPanelsLoop cfg tmpDir imgOk ps (c + 1)
        ⟨done ++ [⟨cur ++ bandOps cfg tmpDir imgOk true p⟩], some [], 0, 0⟩
        (logs ++ [panelLog tmpDir imgOk p]) := by
  have hc' : ¬ c % 2 = 0 := by omega
  simp only [renderPanelsLoop, hc', if_neg, if_false, GoPdf.setX, GoPdf.setY,
    GoPdf.cell, GoPdf.placeImage, GoPdf.addPage, GoPdf.pages, bandOps, panelLog]
  cases h : imgOk p <;> simp [h, imgErrLog, imgOkLog]

/-- The pages of the document produced by the panel loop, in closed form. -/
theorem renderPanelsLoop_pages (n : Nat) : ∀ ps : List Panel, ps.length ≤ n →
    ∀ (done : List Page) (cur : List DrawOp) (x y : ℚ) (logs : List String)
      (c : Nat), c % 2 = 0 →
      (renderPanelsLoop cfg tmpDir imgOk ps c ⟨done, some cur, x, y⟩ logs).1.pages
        = done ++ (panelPages cfg tmpDir imgOk cur ps).map Page.mk := by
  induction n with
  | zero =>
    intro ps hps done cur x y logs c hc
    have : ps = [] := List.eq_nil_of_length_eq_zero (Nat.le_zero.mp hps)
    subst this
    simp [renderPanelsLoop, panelPages, GoPdf.pages]
  | succ n ih =>
    intro ps hps done cur x y logs c hc
    match ps with
    | [] => simp [renderPanelsLoop, panelPages, GoPdf.pages]
    | [p] =>
      rw [renderPanelsLoop_cons_even cfg tmpDir imgOk p [] c hc]
      simp [renderPanelsLoop, panelPages, GoPdf.pages]
    | p :: q :: ps =>
      rw [renderPanelsLoop_cons_even cfg tmpDir imgOk p (q :: ps) c hc,
        renderPanelsLoop_cons_odd cfg tmpDir imgOk q ps (c + 1) (by omega)]
      rw [ih ps (by simp at hps; omega)
        _ _ 0 0 _ (c + 2) (by omega)]
      simp [panelPages]

/-- The log lines of the panel loop: one per panel, in dashboard order,
independent of the document state and of the counter. -/
theorem renderPanelsLoop_logs : ∀ (ps : List Panel) (c : Nat) (pdf : GoPdf)
    (logs : List String),
    (renderPanelsLoop cfg tmpDir imgOk ps c pdf logs).2 =
      logs ++ ps.map (panelLog tmpDir imgOk)
  | [], _, _, _ => by simp [renderPanelsLoop]
  | p :: ps, c, pdf, logs => by
    simp only [renderPanelsLoop]
    rw [renderPanelsLoop_logs ps]
    cases h : imgOk p <;>
      by_cases hc : c % 2 = 0 <;>
        simp [hc, h, GoPdf.placeImage, panelLog, List.append_assoc]

/-- Number of pages in the closed form: `1 + ⌊N/2⌋`. -/
theorem panelPages_length (n : Nat) : ∀ ps : List Panel, ps.length ≤ n →
    ∀ cur, (panelPages cfg tmpDir imgOk cur ps).length = 1 + ps.length / 2 := by
  induction n with
  | zero =>
    intro ps hps cur
    have : ps = [] := List.eq_nil_of_length_eq_zero (Nat.le_zero.mp hps)
    subst this; simp [panelPages]
  | succ n ih =>
    intro ps hps cur
    match ps with
    | [] => simp [panelPages]
    | [p] => simp [panelPages]
    | p :: q :: ps =>
      have := ih ps (by simp at hps; omega) []
      simp only [panelPages, List.length_cons, this]
      omega

/-- The two cover-page cells drawn by `createHomePage`. -/
def coverOps (t : TimeRange) (dash : Dashboard) : List DrawOp :=
  [DrawOp.text cfg.position.x 0 ("Dashboard: " ++ dash.title),
   DrawOp.text cfg.position.x (0 + cfg.position.br)
     (t.fromFormatted ++ " to " ++ t.toFormatted)]

/-- `createHomePage` on a fresh document: one open page with the cover cells. -/
theorem createHomePage_start (t : TimeRange) (dash : Dashboard) :
    createHomePage cfg t dash GoPdf.start =
      ⟨[], some (coverOps cfg t dash), cfg.position.x, 0 + cfg.position.br⟩ := by
  simp [createHomePage, GoPdf.start, GoPdf.addPage, GoPdf.pages, GoPdf.setX,
    GoPdf.setY, GoPdf.br, GoPdf.cell, coverOps]

/-- The pages of the assembled document, in closed form: the cover cells on
the first page, then the panels paired up. -/
theorem renderPDFDoc_pages (t : TimeRange) (dash : Dashboard) :
    (renderPDFDoc cfg tmpDir t imgOk dash).1.pages =
      (panelPages cfg tmpDir imgOk (coverOps cfg t dash) dash.panels).map Page.mk := by
  rw [renderPDFDoc, createHomePage_start]
  exact renderPanelsLoop_pages cfg tmpDir imgOk dash.panels.length dash.panels
    le_rfl [] _ _ _ [] 0 rfl

/-- The first page of the closed form extends whatever the open page held. -/
theorem panelPages_head (cur : List DrawOp) (ps : List Panel) :
    ∃ rest, (panelPages cfg tmpDir imgOk cur ps).get? 0 = some (cur ++ rest) := by
  match ps with
  | [] => exact ⟨[], by simp [panelPages]⟩
  | [p] => exact ⟨bandOps cfg tmpDir imgOk false p, by simp [panelPages]⟩
  | p :: q :: ps =>
    exact ⟨bandOps cfg tmpDir imgOk false p ++ bandOps cfg tmpDir imgOk true q,
      by simp [panelPages]⟩

/-- Panel `i` (0-indexed) contributes its band — title cell followed, on
success, by its image — to page `i / 2` of the closed form, in the top band
when `i` is even and the bottom band when `i` is odd. -/
theorem panelPages_get (n : Nat) : ∀ ps : List Panel, ps.length ≤ n →
    ∀ (cur : List DrawOp) (i : Nat) (h : i < ps.length),
      ∃ pre post, (panelPages cfg tmpDir imgOk cur ps).get? (i / 2) =
        some (pre ++ bandOps cfg tmpDir imgOk (i % 2 = 1) (ps.get ⟨i, h⟩) ++ post) := by
  induction n with
  | zero =>
    intro ps hps cur i h
    have : ps = [] := List.eq_nil_of_length_eq_zero (Nat.le_zero.mp hps)
    subst this; exact absurd h (by simp)
  | succ n ih =>
    intro ps hps cur i h
    match ps with
    | [] => exact absurd h (by simp)
    | [p] =>
      match i, h with
      | 0, _ => exact ⟨cur, [], by simp [panelPages]⟩
    | p :: q :: ps =>
      match i with
      | 0 =>
        exact ⟨cur, bandOps cfg tmpDir imgOk true q, by simp [panelPages]⟩
      | 1 =>
        exact ⟨cur ++ bandOps cfg tmpDir imgOk false p, [], by simp [panelPages]⟩
      | (j + 2) =>
        have hj : j < ps.length := by simpa [Nat.succ_lt_succ_iff] using h
        obtain ⟨pre, post, hpp⟩ :=
          ih ps (by simp at hps; omega) [] j hj
        refine ⟨pre, post, ?_⟩
        have hdiv : (j + 2) / 2 = j / 2 + 1 := by omega
        simp only [panelPages, hdiv, List.get?_cons_succ, Nat.add_mod_right]
        simpa using hpp

end ClosedForm

/-! ## Sample inputs for witnesses and counterexamples -/

/-- A sample graph-kind panel. -/
def samplePanel : Panel := ⟨1, "p", "r", false⟩

/-- A dashboard with a single panel. -/
def oneDash : Dashboard := ⟨"D", [samplePanel]⟩

/-- A sample time range. -/
def sampleTime : TimeRange := ⟨"f", "t"⟩

/-- Page count of the assembled document (shared helper). -/
theorem renderPDFDoc_length (cfg : Config) (tmpDir : String) (t : TimeRange)
    (imgOk : Panel → Bool) (dash : Dashboard) :
    (renderPDFDoc cfg tmpDir t imgOk dash).1.pages.length =
      1 + dash.panels.length / 2 := by
  rw [renderPDFDoc_pages, List.length_map]
  exact panelPages_length cfg tmpDir imgOk dash.panels.length dash.panels le_rfl _

/-- Band placement of panel `i` in the assembled document (shared helper). -/
theorem renderPDFDoc_band (cfg : Config) (tmpDir : String) (t : TimeRange)
    (imgOk : Panel → Bool) (dash : Dashboard) (i : Nat)
    (h : i < dash.panels.length) :
    ∃ pre post, ((renderPDFDoc cfg tmpDir t imgOk dash).1.pages).get? (i / 2) =
      some ⟨pre ++ bandOps cfg tmpDir imgOk (i % 2 = 1)
        (dash.panels.get ⟨i, h⟩) ++ post⟩ := by
  rw [renderPDFDoc_pages]
  obtain ⟨pre, post, hp⟩ := panelPages_get cfg tmpDir imgOk
    dash.panels.length dash.panels le_rfl (coverOps cfg t dash) i h
  refine ⟨pre, post, ?_⟩
  rw [List.get?_eq_getElem?, List.getElem?_map, ← List.get?_eq_getElem?, hp]
  rfl

/-- Cover prefix of the first page (shared helper). -/
theorem renderPDFDoc_cover (cfg : Config) (tmpDir : String) (t : TimeRange)
    (imgOk : Panel → Bool) (dash : Dashboard) :
    ∃ rest, ((renderPDFDoc cfg tmpDir t imgOk dash).1.pages).get? 0 =
      some ⟨coverOps cfg t dash ++ rest⟩ := by
  rw [renderPDFDoc_pages]
  obtain ⟨rest, hr⟩ :=
    panelPages_head cfg tmpDir imgOk (coverOps cfg t dash) dash.panels
  refine ⟨rest, ?_⟩
  rw [List.get?_eq_getElem?, List.getElem?_map, ← List.get?_eq_getElem?, hr]
  rfl

/-! ## C1: page count -/

/-- C1 (amended): for every dashboard with `N` panels the document assembled
by `renderPDF` contains exactly `1 + N / 2` (floor division) pages; in
particular a dashboard with zero panels yields exactly one page.  (The
spec's `1 + ⌈N/2⌉` fails for odd `N`: panels start on the cover page, and
only every second panel closes a page.) -/
theorem renderPDF_page_count (cfg : Config) (tmpDir : String) (t : TimeRange)
    (imgOk : Panel → Bool) (dash : Dashboard) :
    (renderPDFDoc cfg tmpDir t imgOk dash).1.pages.length =
      1 + dash.panels.length / 2 :=
  renderPDFDoc_length cfg tmpDir t imgOk dash

/-- C1 counterexample: a dashboard with one panel produces a single page,
not the `1 + ⌈1/2⌉ = 2` pages the claim demands. -/
theorem renderPDF_page_count_ceil_refuted :
    (renderPDFDoc defaultConf "tmp/u" sampleTime (fun _ => true) oneDash).1.pages.length
      ≠ 1 + (oneDash.panels.length + 1) / 2 := by
  decide

/-! ## C2: layout order -/

/-- C2 (amended): the first page opens with the cover cells (dashboard title,
then the time range `"<from> to <to>"`), and panel `i` (0-indexed) is placed
in band `i mod 2` (even = top band at `TitleY1`/`ImageY1`, odd = bottom band
at `TitleY2`/`ImageY2`) on page `1 + i/2` (integer division, counting the
cover page as page 1, i.e. index `i/2`), preserving original dashboard
order.  (The spec errs in having the first panel start a fresh page after
the cover: no page break precedes the panel loop, so panels 0 and 1 share
the cover page.) -/
theorem renderPDF_layout (cfg : Config) (tmpDir : String) (t : TimeRange)
    (imgOk : Panel → Bool) (dash : Dashboard) :
    (∃ rest, ((renderPDFDoc cfg tmpDir t imgOk dash).1.pages).get? 0 =
      some ⟨coverOps cfg t dash ++ rest⟩) ∧
    ∀ (i : Nat) (h : i < dash.panels.length), ∃ pre post,
      ((renderPDFDoc cfg tmpDir t imgOk dash).1.pages).get? (i / 2) =
        some ⟨pre ++ bandOps cfg tmpDir imgOk (i % 2 = 1)
          (dash.panels.get ⟨i, h⟩) ++ post⟩ :=
  ⟨renderPDFDoc_cover cfg tmpDir t imgOk dash,
    fun i h => renderPDFDoc_band cfg tmpDir t imgOk dash i h⟩

/-- C2 witness: for the one-panel dashboard, panel 0 sits in the top band of
page index 0. -/
theorem renderPDF_layout_witness :
    ∃ pre post,
      ((renderPDFDoc defaultConf "tmp/u" sampleTime (fun _ => true) oneDash).1.pages).get? 0 =
        some ⟨pre ++ bandOps defaultConf "tmp/u" (fun _ => true) (0 % 2 = 1)
          (oneDash.panels.get ⟨0, by decide⟩) ++ post⟩ := by
  have h := (renderPDF_layout defaultConf "tmp/u" sampleTime (fun _ => true)
    oneDash).2 0 (by decide)
  simpa using h

/-- C2 counterexample: the claim says page 1 holds only the dashboard title
and the formatted time range, with the first panel starting a fresh page; but
for a one-panel dashboard the first panel's title cell is drawn on the first
(cover) page. -/
theorem renderPDF_cover_page_holds_panel :
    DrawOp.text defaultConf.position.x defaultConf.position.titleY1
        (panelLabel samplePanel) ∈
      (((renderPDFDoc defaultConf "tmp/u" sampleTime (fun _ => true)
        oneDash).1.pages).getD 0 ⟨[]⟩).ops := by
  have hpages : (renderPDFDoc defaultConf "tmp/u" sampleTime (fun _ => true)
      oneDash).1.pages =
      [⟨coverOps defaultConf sampleTime oneDash ++
        bandOps defaultConf "tmp/u" (fun _ => true) false samplePanel⟩] := by
    rw [renderPDFDoc_pages]; rfl
  rw [hpages]
  simp [coverOps, bandOps]

/-! ## C6: image-placement failure is non-fatal -/

/-- C6: a per-panel image-placement failure during assembly is non-fatal:
`renderPDF` still returns the assembled document (with `NewPDF` and the
final open succeeding, image failures never produce an error), the page
count is the same `1 + N/2` as in the all-successful run, exactly one log
line is emitted per panel in order (`panelLog` is the error line for a
failed placement), every failed panel's error line is logged, and every
panel's title cell is still drawn in its band on page `i/2` regardless of
the placement outcome. -/
theorem renderPDF_image_failure_nonfatal (cfg : Config) (tmpDir : String)
    (t : TimeRange) (imgOk : Panel → Bool) (dash : Dashboard) :
    renderPDFModel cfg tmpDir t imgOk true true dash =
      .ok (renderPDFDoc cfg tmpDir t imgOk dash) ∧
    (renderPDFDoc cfg tmpDir t imgOk dash).1.pages.length =
      (renderPDFDoc cfg tmpDir t (fun _ => true) dash).1.pages.length ∧
    (renderPDFDoc cfg tmpDir t imgOk dash).2 =
      dash.panels.map (panelLog tmpDir imgOk) ∧
    (∀ p ∈ dash.panels, imgOk p = false →
      imgErrLog (imgFilePath tmpDir p) "image error" ∈
        (renderPDFDoc cfg tmpDir t imgOk dash).2) ∧
    ∀ (i : Nat) (h : i < dash.panels.length), ∃ pre post,
      ((renderPDFDoc cfg tmpDir t imgOk dash).1.pages).get? (i / 2) =
        some ⟨pre ++ DrawOp.text cfg.position.x
          (if i % 2 = 1 then cfg.position.titleY2 else cfg.position.titleY1)
          (panelLabel (dash.panels.get ⟨i, h⟩)) :: post⟩ := by
  have hlogs : (renderPDFDoc cfg tmpDir t imgOk dash).2 =
      dash.panels.map (panelLog tmpDir imgOk) := by
    rw [renderPDFDoc]
    exact renderPanelsLoop_logs cfg tmpDir imgOk dash.panels 0 _ []
  refine ⟨rfl, ?_, hlogs, ?_, ?_⟩
  · rw [renderPDFDoc_length, renderPDFDoc_length]
  · intro p hp hbad
    rw [hlogs]
    have : panelLog tmpDir imgOk p =
        imgErrLog (imgFilePath tmpDir p) "image error" := by
      simp [panelLog, hbad]
    exact this ▸ List.mem_map_of_mem _ hp
  · intro i h
    obtain ⟨pre, post, hp⟩ := renderPDFDoc_band cfg tmpDir t imgOk dash i h
    refine ⟨pre, (if imgOk (dash.panels.get ⟨i, h⟩) then
      [DrawOp.image (imgFilePath tmpDir (dash.panels.get ⟨i, h⟩)) cfg.position.x
        (if (i % 2 = 1 : Bool) then cfg.position.imageY2 else cfg.position.imageY1)
        (panelRect cfg (dash.panels.get ⟨i, h⟩)).width
        (panelRect cfg (dash.panels.get ⟨i, h⟩)).height]
      else []) ++ post, ?_⟩
    rw [hp]
    congr 1
    simp only [bandOps, Page.mk.injEq]
    have : (if (i % 2 = 1 : Bool) then cfg.position.titleY2
        else cfg.position.titleY1) =
        (if i % 2 = 1 then cfg.position.titleY2 else cfg.position.titleY1) := by
      by_cases hi : i % 2 = 1 <;> simp [hi]
    rw [← this]
    simp

/-- C6 witness: with every image placement failing on the one-panel
dashboard, the error line for the panel is logged. -/
theorem renderPDF_image_failure_nonfatal_witness :
    imgErrLog (imgFilePath "tmp/u" samplePanel) "image error" ∈
      (renderPDFDoc defaultConf "tmp/u" sampleTime (fun _ => false) oneDash).2 :=
  (renderPDF_image_failure_nonfatal defaultConf "tmp/u" sampleTime
    (fun _ => false) oneDash).2.2.2.1 samplePanel (by decide) rfl

/-! ## `renderPNG` (`report.go` lines 180–199)

One panel fetch: open the byte stream (`rep.gClient.GetPanelPng`, outcome
oracle `getErr`), create the local file (`os.Create`, oracle `createErr`),
copy (`io.Copy`, oracle `copyErr`).  `defer body.Close()` and
`defer file.Close()` run in LIFO order on every return path after the
corresponding resource was acquired.  The model records the resource events
in execution order, the returned error, and the path of the file left on
disk (`os.Create` leaves a file even when the subsequent copy fails). -/

/-- Resource events of one `renderPNG` run. -/
inductive PngEv where
  | bodyOpen
  | bodyClose
  | fileCreate
  | fileClose
  | copy
deriving DecidableEq, Repr

/-- Outcome of one `renderPNG` run. -/
structure PngRun where
  events : List PngEv
  result : Option String
  written : Option String
deriving DecidableEq, Repr

/-- `rep.renderPNG(p)`. -/
def renderPNGModel (tmpDir : String) (p : Panel)
    (getErr createErr copyErr : Option String) : PngRun :=
  match getErr with
  | some e => ⟨[], some ("getting panel error: " ++ e), none⟩
  | none =>
    match createErr with
    | some e =>
      ⟨[.bodyOpen, .bodyClose],
        some ("creating image file " ++ imgFilePath tmpDir p ++ " error: " ++ e),
        none⟩
    | none =>
      match copyErr with
      | some e =>
        ⟨[.bodyOpen, .fileCreate, .fileClose, .bodyClose],
          some ("copying body to file error: " ++ e),
          some (imgFilePath tmpDir p)⟩
      | none =>
        ⟨[.bodyOpen, .fileCreate, .copy, .fileClose, .bodyClose], none,
          some (imgFilePath tmpDir p)⟩

/-! ## `renderPNGsParallel` (`report.go` lines 133–172)

All panels are buffered on a channel (capacity = panel count) which is then
closed; `workers = 5` goroutines each drain the channel until exhausted.
Channel semantics deliver every queued panel to exactly one worker: the
schedule is modelled by an arbitrary function `a` assigning each queue
position to the worker that receives it.  Failures are sent to an error
channel of capacity = panel count (so a send never blocks) and logged with
the panel ID; after `wg.Wait()` the error channel is drained and the first
non-nil error — every sent error is non-nil — is returned.  The drain order
interleaves the per-worker send orders arbitrarily: it is modelled by a list
`order` whose multiset equals the combined per-worker error multiset. -/

/-- The hard-coded worker count of `renderPNGsParallel` (`workers = 5`);
`config.grafana` has no worker-count field, so it is not configurable. -/
def workers : Nat := 5

/-- The sub-queue a worker receives: the panels at the queue positions
(numbered from `i`) that the schedule `a` assigns to worker `w`, in queue
order. -/
def assigned (a : Nat → Fin workers) (w : Fin workers) :
    List Panel → Nat → List Panel
  | [], _ => []
  | p :: ps, i => (if a i = w then [p] else []) ++ assigned a w ps (i + 1)

/-- The errors one worker sends to the error channel: one per failing panel
of its sub-queue, where `rp p` is the outcome of `rep.renderPNG(p)`. -/
def workerErrs (rp : Panel → Option String) (qs : List Panel) : List String :=
  qs.filterMap rp

/-- The log lines one worker emits: panel ID and error, for each failure
(`creating image for panel ID %d error: %v`). -/
def workerLogs (rp : Panel → Option String) (qs : List Panel) :
    List (Int × String) :=
  qs.filterMap fun p => (rp p).map fun e => (p.id, e)

/-- The drain loop `for err := range errs { if err != nil { return err } }`:
every channel element is a non-nil error, so the first element (if any) is
returned. -/
def drainErrs : List String → Option String
  | [] => none
  | e :: _ => some e

/-- Partition lemma: summing any `filterMap` over the per-worker sub-queues
recovers the `filterMap` over the whole queue — each queued panel is
delivered to exactly one worker. -/
theorem assigned_filterMap_sum {β : Type} (a : Nat → Fin workers)
    (g : Panel → Option β) :
    ∀ (ps : List Panel) (i : Nat),
      (∑ w : Fin workers, ↑((assigned a w ps i).filterMap g) : Multiset β) =
        ↑(ps.filterMap g)
  | [], i => by simp [assigned]
  | p :: ps, i => by
    have step : ∀ w : Fin workers,
        ((assigned a w (p :: ps) i).filterMap g : Multiset β) =
          (if a i = w then ↑([p].filterMap g) else 0) +
            ↑((assigned a w ps (i + 1)).filterMap g) := by
      intro w
      by_cases hw : a i = w
      · cases hgp : g p <;> simp [assigned, hw, List.filterMap_cons, hgp]
      · simp [assigned, hw]
    calc (∑ w : Fin workers, ↑((assigned a w (p :: ps) i).filterMap g) : Multiset β)
        = (∑ w : Fin workers, ((if a i = w then ↑([p].filterMap g) else 0) +
            ↑((assigned a w ps (i + 1)).filterMap g)) : Multiset β) := by
          exact Finset.sum_congr rfl fun w _ => step w
      _ = (∑ w : Fin workers, if a i = w then (↑([p].filterMap g) : Multiset β) else 0) +
            ∑ w : Fin workers, ↑((assigned a w ps (i + 1)).filterMap g) :=
          Finset.sum_add_distrib
      _ = ↑([p].filterMap g) + ↑(ps.filterMap g) := by
          rw [Finset.sum_ite_eq, if_pos (Finset.mem_univ _),
            assigned_filterMap_sum a g ps (i + 1)]
      _ = ↑((p :: ps).filterMap g) := by
          cases h : g p <;> simp [List.filterMap_cons, h]

/-- Each panel of the queue is delivered to exactly one worker: the combined
multiset of the per-worker sub-queues is the queue itself. -/
theorem assigned_sum (a : Nat → Fin workers) (ps : List Panel) :
    (∑ w : Fin workers, ↑(assigned a w ps 0) : Multiset Panel) = ↑ps := by
  have h := assigned_filterMap_sum a some ps 0
  simpa using h

/-- Sub-queues only hold panels of the queue. -/
theorem assigned_subset (a : Nat → Fin workers) (w : Fin workers) :
    ∀ (ps : List Panel) (i : Nat), ∀ q ∈ assigned a w ps i, q ∈ ps
  | [], _ => by simp [assigned]
  | p :: ps, i => by
    intro q hq
    simp only [assigned, List.mem_append] at hq
    rcases hq with hq | hq
    · rcases ite_eq_or_eq (a i = w) [p] [] with h | h <;> rw [h] at hq <;>
        simp at hq
      simp [hq]
    · exact List.mem_cons_of_mem _ (assigned_subset a w ps (i + 1) q hq)

/-- `filterMap` of a pointwise-`none` function over members is empty. -/
theorem filterMap_none_of_mem {α β : Type} (f : α → Option β) :
    ∀ l : List α, (∀ x ∈ l, f x = none) → l.filterMap f = []
  | [], _ => rfl
  | x :: l, h => by
    have hx := h x (by simp)
    simp [List.filterMap_cons, hx,
      filterMap_none_of_mem f l fun y hy => h y (by simp [hy])]

/-- `filterMap` of a pointwise-`some` function over members is the `map`. -/
theorem filterMap_some_of_mem {α β : Type} (f : α → Option β) (g : α → β) :
    ∀ l : List α, (∀ x ∈ l, f x = some (g x)) → l.filterMap f = l.map g
  | [], _ => rfl
  | x :: l, h => by
    have hx := h x (by simp)
    simp [List.filterMap_cons, hx,
      filterMap_some_of_mem f g l fun y hy => h y (by simp [hy])]

/-- `filterMap` is empty exactly when the function is `none` on every member. -/
theorem filterMap_nil_iff {α β : Type} (f : α → Option β) (l : List α) :
    l.filterMap f = [] ↔ ∀ x ∈ l, f x = none := by
  constructor
  · intro h x hx
    cases hfx : f x with
    | none => rfl
    | some b =>
      have : b ∈ l.filterMap f := List.mem_filterMap.mpr ⟨x, hx, hfx⟩
      rw [h] at this
      simp at this
  · exact filterMap_none_of_mem f l

/-! ## C3, C4, C10: the fetch stage -/

/-- C3: `renderPNGsParallel` fails iff at least one panel fetch/write failed.
`rp p` is the outcome of `renderPNG p`; the drained error list `order` is any
interleaving of the errors collected from all workers (the aggregate is
resolved only after every worker terminated — the model drains the combined
multiset, there is no early return).  The drain loop returns exactly the
first drained error, and every failure was logged with its panel identifier
into the combined worker logs before the drain. -/
theorem renderPNGsParallel_error_iff (rp : Panel → Option String)
    (ps : List Panel) (a : Nat → Fin workers) (order : List String)
    (horder : (↑order : Multiset String) =
      ∑ w : Fin workers, ↑(workerErrs rp (assigned a w ps 0))) :
    (drainErrs order = none ↔ ∀ p ∈ ps, rp p = none) ∧
    (∀ e, drainErrs order = some e → ∃ p ∈ ps, rp p = some e) ∧
    drainErrs order = order.head? ∧
    (∀ p ∈ ps, ∀ e, rp p = some e →
      (p.id, e) ∈ (∑ w : Fin workers,
        ↑(workerLogs rp (assigned a w ps 0)) : Multiset (Int × String))) := by
  have hall : (↑order : Multiset String) = ↑(ps.filterMap rp) :=
    horder.trans (assigned_filterMap_sum a rp ps 0)
  have hperm : order.Perm (ps.filterMap rp) := Multiset.coe_eq_coe.mp hall
  have hlen : order.length = (ps.filterMap rp).length := hperm.length_eq
  have hdrain : drainErrs order = none ↔ order = [] := by
    cases order <;> simp [drainErrs]
  refine ⟨?_, ?_, ?_, ?_⟩
  · rw [hdrain, ← filterMap_nil_iff rp ps]
    constructor
    · intro h
      rw [h] at hlen
      exact List.eq_nil_of_length_eq_zero hlen.symm
    · intro h
      rw [h] at hlen
      exact List.eq_nil_of_length_eq_zero hlen
  · intro e he
    have hmem : e ∈ order := by
      cases order with
      | nil => simp [drainErrs] at he
      | cons e' es =>
        simp only [drainErrs, Option.some.injEq] at he
        simp [he]
    exact List.mem_filterMap.mp (hperm.mem_iff.mp hmem)
  · cases order <;> rfl
  · intro p hp e he
    have hsum : (∑ w : Fin workers,
        ↑(workerLogs rp (assigned a w ps 0)) : Multiset (Int × String)) =
        ↑(ps.filterMap fun q => (rp q).map fun e => (q.id, e)) :=
      assigned_filterMap_sum a _ ps 0
    rw [hsum]
    exact Multiset.mem_coe.mpr
      (List.mem_filterMap.mpr ⟨p, hp, by simp [he]⟩)

/-- C3 witness: one panel whose fetch fails with `"boom"`, delivered to
worker 0; the drained error is returned. -/
theorem renderPNGsParallel_error_iff_witness :
    drainErrs ["boom"] = some "boom" :=
  ((renderPNGsParallel_error_iff (fun _ => some "boom") [samplePanel]
    (fun _ => ⟨0, by decide⟩) ["boom"]
    (by simp [workers, Fin.sum_univ_five, workerErrs, assigned])).2.2.1).trans rfl

/-- C4: when no fetch fails, every panel is delivered to exactly one worker
(the combined sub-queues are exactly the panel list), the combined files
written to the artifact store are exactly one image per panel at its derived
path, and `renderPNGsParallel` returns nil. -/
theorem renderPNGsParallel_success (tmpDir : String)
    (getE createE copyE : Panel → Option String) (ps : List Panel)
    (a : Nat → Fin workers) (order : List String)
    (hget : ∀ p ∈ ps, getE p = none) (hcreate : ∀ p ∈ ps, createE p = none)
    (hcopy : ∀ p ∈ ps, copyE p = none)
    (horder : (↑order : Multiset String) = ∑ w : Fin workers,
      ↑(workerErrs
        (fun p => (renderPNGModel tmpDir p (getE p) (createE p) (copyE p)).result)
        (assigned a w ps 0))) :
    (∑ w : Fin workers, ↑(assigned a w ps 0) : Multiset Panel) = ↑ps ∧
    (∑ w : Fin workers, ↑((assigned a w ps 0).filterMap
        (fun p => (renderPNGModel tmpDir p (getE p) (createE p) (copyE p)).written))
      : Multiset String) = ↑(ps.map (imgFilePath tmpDir)) ∧
    drainErrs order = none := by
  have hres : ∀ p ∈ ps,
      (renderPNGModel tmpDir p (getE p) (createE p) (copyE p)).result = none := by
    intro p hp
    rw [hget p hp, hcreate p hp, hcopy p hp]
    rfl
  have hwrit : ∀ p ∈ ps,
      (renderPNGModel tmpDir p (getE p) (createE p) (copyE p)).written =
        some (imgFilePath tmpDir p) := by
    intro p hp
    rw [hget p hp, hcreate p hp, hcopy p hp]
    rfl
  refine ⟨assigned_sum a ps, ?_, ?_⟩
  · have h := assigned_filterMap_sum a
      (fun p => (renderPNGModel tmpDir p (getE p) (createE p) (copyE p)).written) ps 0
    rw [h, filterMap_some_of_mem _ (imgFilePath tmpDir) ps hwrit]
  · have hzero : ∀ w : Fin workers,
        workerErrs
          (fun p => (renderPNGModel tmpDir p (getE p) (createE p) (copyE p)).result)
          (assigned a w ps 0) = [] := by
      intro w
      exact filterMap_none_of_mem _ _
        fun q hq => hres q (assigned_subset a w ps 0 q hq)
    have : (↑order : Multiset String) = 0 := by
      rw [horder]
      simp [hzero]
    have : order = [] := by simpa using this
    rw [this]
    rfl

/-- C4 witness: one panel, all oracles succeeding, delivered to worker 0:
the aggregate result is nil. -/
theorem renderPNGsParallel_success_witness :
    drainErrs [] = none :=
  (renderPNGsParallel_success "tmp/u" (fun _ => none) (fun _ => none)
    (fun _ => none) [samplePanel] (fun _ => ⟨0, by decide⟩) []
    (fun _ _ => rfl) (fun _ _ => rfl) (fun _ _ => rfl)
    (by simp [workers, Fin.sum_univ_five, workerErrs, assigned, renderPNGModel])).2.2

/-- C10: the fetch stage always launches `workers = 5` workers — a hard-coded
local constant; `config.grafana` carries no worker-count field, and the
constant does not depend on the panel list.  For a dashboard with zero
panels every one of the 5 workers receives the empty sub-queue (terminating
immediately), no error is produced, and the aggregate result is nil. -/
theorem workers_hardcoded_five (rp : Panel → Option String)
    (a : Nat → Fin workers) (order : List String)
    (horder : (↑order : Multiset String) = ∑ w : Fin workers,
      ↑(workerErrs rp (assigned a w ([] : List Panel) 0))) :
    workers = 5 ∧ (∀ w : Fin workers, assigned a w [] 0 = []) ∧
      drainErrs order = none := by
  refine ⟨rfl, fun w => rfl, ?_⟩
  have : (↑order : Multiset String) = 0 := by
    rw [horder]
    simp [workerErrs, assigned]
  have : order = [] := by simpa using this
  rw [this]
  rfl

/-- C10 witness: with an empty panel list and an empty drained error list the
aggregate result is nil. -/
theorem workers_hardcoded_five_witness :
    workers = 5 ∧ (∀ w : Fin workers,
      assigned (fun _ => ⟨0, by decide⟩) w [] 0 = []) ∧ drainErrs [] = none :=
  workers_hardcoded_five (fun _ => none) (fun _ => ⟨0, by decide⟩) []
    (by simp [workers, Fin.sum_univ_five, workerErrs, assigned])

/-! ## C7: resource release in `renderPNG` -/

/-- C7: in `renderPNG`, on every execution path the byte stream, once opened,
is closed, and the local file, once created, is closed: in the event trace
the open/close counts balance for both resources, and whenever the fetch
succeeds the body is opened (and so closed) exactly once, and whenever the
file is created (fetch and create both succeed) it is closed exactly once —
including the paths where `os.Create` or `io.Copy` fails. -/
theorem renderPNG_resource_safety (tmpDir : String) (p : Panel)
    (getErr createErr copyErr : Option String) :
    (renderPNGModel tmpDir p getErr createErr copyErr).events.count PngEv.bodyOpen =
      (renderPNGModel tmpDir p getErr createErr copyErr).events.count PngEv.bodyClose ∧
    (renderPNGModel tmpDir p getErr createErr copyErr).events.count PngEv.fileCreate =
      (renderPNGModel tmpDir p getErr createErr copyErr).events.count PngEv.fileClose ∧
    (getErr = none →
      (renderPNGModel tmpDir p getErr createErr copyErr).events.count PngEv.bodyOpen = 1) ∧
    (getErr = none → createErr = none →
      (renderPNGModel tmpDir p getErr createErr copyErr).events.count PngEv.fileCreate = 1) := by
  cases getErr <;> cases createErr <;> cases copyErr <;>
    simp [renderPNGModel]

/-- C7 witness: the all-success path opens the body exactly once (and the
other conjuncts instantiate alongside). -/
theorem renderPNG_resource_safety_witness :
    (renderPNGModel "tmp/u" samplePanel none none none).events.count
      PngEv.bodyOpen = 1 :=
  (renderPNG_resource_safety "tmp/u" samplePanel none none none).2.2.1 rfl

/-! ## `Clean` (`report.go` lines 118–123)

The filesystem is modelled as the list of existing paths.  `os.RemoveAll`
removes the directory and everything under it and, per its Go contract,
returns nil when the path does not exist; other failures (e.g. permissions)
are supplied by the oracle `osFault` and leave the state unchanged.  `Clean`
returns nothing: a removal error is only written to the log. -/

/-- Is the first character list a prefix of the second? -/
def strHasPref : List Char → List Char → Bool
  | [], _ => true
  | _ :: _, [] => false
  | c :: cs, d :: ds => c = d && strHasPref cs ds

/-- Is path `q` the directory `d` itself or a path under it? -/
def underDir (d q : String) : Bool :=
  q = d || strHasPref (d ++ "/").data q.data

/-- `os.RemoveAll(d)`: no-op success when nothing exists at `d`; otherwise
remove the subtree, unless the OS reports a fault. -/
def removeAllModel (d : String) (fs : List String) (osFault : Option String) :
    List String × Option String :=
  if (fs.filter fun q => underDir d q).isEmpty then (fs, none)
  else
    match osFault with
    | some e => (fs, some e)
    | none => (fs.filter fun q => ! underDir d q, none)

/-- `rep.Clean()`: `os.RemoveAll(rep.tmpDir)`, logging
`cleaning up tmp dir %s error: %v` on failure.  The return value carries no
error — only the new filesystem state and the emitted log lines. -/
def CleanModel (tmpDir : String) (fs : List String) (osFault : Option String) :
    List String × List String :=
  let r := removeAllModel tmpDir fs osFault
  (r.1,
    match r.2 with
    | some e => ["cleaning up tmp dir " ++ tmpDir ++ " error: " ++ e]
    | none => [])

/-- C5: `Clean` is idempotent and never surfaces an error (its model returns
no error value at the type level): a second call after a successful clean
changes nothing and logs nothing, whatever the OS oracle says; calling it
when nothing was ever created under the scratch area changes nothing and
logs nothing; and an underlying removal failure is logged, not raised. -/
theorem Clean_idempotent_no_error (tmpDir : String) (fs : List String)
    (f1 f2 : Option String) :
    CleanModel tmpDir (CleanModel tmpDir fs none).1 f2 =
      ((CleanModel tmpDir fs none).1, []) ∧
    ((fs.filter fun q => underDir tmpDir q).isEmpty →
      CleanModel tmpDir fs f1 = (fs, [])) ∧
    (¬ (fs.filter fun q => underDir tmpDir q).isEmpty → ∀ e, f1 = some e →
      CleanModel tmpDir fs f1 =
        (fs, ["cleaning up tmp dir " ++ tmpDir ++ " error: " ++ e])) := by
  refine ⟨?_, ?_, ?_⟩
  · by_cases h : (fs.filter fun q => underDir tmpDir q).isEmpty
    · have hfs : (CleanModel tmpDir fs none).1 = fs := by
        simp [CleanModel, removeAllModel, h]
      rw [hfs]
      simp [CleanModel, removeAllModel, h]
    · have hfs : (CleanModel tmpDir fs none).1 =
          fs.filter fun q => ! underDir tmpDir q := by
        simp [CleanModel, removeAllModel, h]
      rw [hfs]
      have hempty : ((fs.filter fun q => ! underDir tmpDir q).filter
          fun q => underDir tmpDir q) = [] := by
        rw [List.filter_filter]
        have : ∀ q : String, (underDir tmpDir q && ! underDir tmpDir q) = false := by
          intro q
          cases underDir tmpDir q <;> rfl
        simp [this]
      simp [CleanModel, removeAllModel, hempty]
  · intro h
    simp [CleanModel, removeAllModel, h]
  · intro h e he
    subst he
    simp [CleanModel, removeAllModel, h]

/-- C5 witness: cleaning a scratch area holding one image while the OS
denies removal leaves the state as-is and logs the failure, surfacing
nothing. -/
theorem Clean_idempotent_no_error_witness :
    CleanModel "tmp/u" ["tmp/u/images/image1.png"] (some "denied") =
      (["tmp/u/images/image1.png"],
        ["cleaning up tmp dir tmp/u error: denied"]) :=
  (Clean_idempotent_no_error "tmp/u" ["tmp/u/images/image1.png"]
    (some "denied") none).2.2 (by decide) "denied" rfl

/-! ## `Generate` (`report.go` lines 91–115)

The orchestration sequence, with an event trace of the local state it
touches: fetch dashboard metadata, create the image directory (`MkdirAll`),
run the fetch stage, assemble and write the PDF, open it.  Stage outcomes
come from the oracles already used above; the fetch stage's aggregate error
is `drainErrs order` as in `renderPNGsParallel`. -/

/-- Local-state / collaborator events of one `Generate` run. -/
inductive GenEv where
  | getDash
  | mkdirAll (path : String)
  | fetchPanels
  | writeFile (path : String)
  | openFile (path : String)
deriving DecidableEq, Repr

/-- The operator hint appended to a fetch-stage error. -/
def fetchHint : String :=
  " It is recommended to select time range within 6 hours on the Dashboard. Otherwise, the grafana timeout problem might occur."

/-- `rep.Generate()`. -/
def generateModel (cfg : Config) (dashName tmpDir : String) (t : TimeRange)
    (dashRes : Except String Dashboard) (mkdirErr : Option String)
    (order : List String) (fontOk openOk : Bool) (imgOk : Panel → Bool) :
    List GenEv × Except String (GoPdf × List String) :=
  match dashRes with
  | .error e =>
    ([.getDash], .error ("fetching dashboard " ++ dashName ++ " error: " ++ e))
  | .ok dash =>
    match mkdirErr with
    | some e =>
      ([.getDash, .mkdirAll (imgDirPath tmpDir)],
        .error ("creating image directory " ++ imgDirPath tmpDir ++
          " error: " ++ e))
    | none =>
      match drainErrs order with
      | some e =>
        ([.getDash, .mkdirAll (imgDirPath tmpDir), .fetchPanels],
          .error ("rendering PNGs in parallel for dash error: " ++ e ++ fetchHint))
      | none =>
        if fontOk then
          if openOk then
            ([.getDash, .mkdirAll (imgDirPath tmpDir), .fetchPanels,
              .writeFile (pdfPath tmpDir), .openFile (pdfPath tmpDir)],
              .ok (renderPDFDoc cfg tmpDir t imgOk dash))
          else
            ([.getDash, .mkdirAll (imgDirPath tmpDir), .fetchPanels,
              .writeFile (pdfPath tmpDir), .openFile (pdfPath tmpDir)],
              .error "rendering pdf for dash error: open pdf file")
        else
          ([.getDash, .mkdirAll (imgDirPath tmpDir), .fetchPanels],
            .error "rendering pdf for dash error: new pdf file")

/-- C8: when fetching the dashboard metadata fails, `Generate` returns the
wrapped error and its event trace is exactly `[getDash]` — in particular it
contains no `mkdirAll` (the temporary directory and image subdirectory are
never created) and no `writeFile` (no file is written), whatever the other
stage oracles would have done. -/
theorem generate_metadata_failure_no_state (cfg : Config)
    (dashName tmpDir : String) (t : TimeRange) (e : String)
    (mkdirErr : Option String) (order : List String) (fontOk openOk : Bool)
    (imgOk : Panel → Bool) :
    generateModel cfg dashName tmpDir t (.error e) mkdirErr order fontOk
      openOk imgOk =
      ([GenEv.getDash],
        .error ("fetching dashboard " ++ dashName ++ " error: " ++ e)) :=
  rfl

/-! ## C9: the artifact path is a function of the panel identifier alone -/

/-- Numeric value of a decimal digit character. -/
def digitVal (c : Char) : Nat := c.toNat - 48

theorem digitVal_digitChar (d : Nat) (h : d < 10) :
    digitVal (digitChar d) = d := by
  interval_cases d <;> decide

theorem digitChar_ne_dash (d : Nat) (h : d < 10) : digitChar d ≠ '-' := by
  interval_cases d <;> decide

/-- Value of a decimal digit string, most significant digit first. -/
def digitsVal (l : List Char) : Nat :=
  l.foldl (fun a c => 10 * a + digitVal c) 0

theorem digitsVal_append (l : List Char) (c : Char) :
    digitsVal (l ++ [c]) = 10 * digitsVal l + digitVal c := by
  unfold digitsVal
  rw [List.foldl_append]
  rfl

/-- Decoding is a left inverse of `natDigits`: the rendering is faithful. -/
theorem digitsVal_natDigits (n : Nat) : digitsVal (natDigits n) = n := by
  induction n using Nat.strong_induction_on with
  | _ n ih =>
    unfold natDigits
    split
    · rename_i h
      simp [digitsVal, digitVal_digitChar n h]
    · rename_i h
      rw [digitsVal_append,
        ih (n / 10) (Nat.div_lt_self (by omega) (by omega)),
        digitVal_digitChar _ (Nat.mod_lt n (by omega))]
      omega

theorem natDigits_inj {a b : Nat} (h : natDigits a = natDigits b) : a = b := by
  have := congrArg digitsVal h
  rwa [digitsVal_natDigits, digitsVal_natDigits] at this

/-- The first character of a rendered natural number is a decimal digit. -/
theorem natDigits_head (n : Nat) :
    ∃ d t, d < 10 ∧ natDigits n = digitChar d :: t := by
  induction n using Nat.strong_induction_on with
  | _ n ih =>
    unfold natDigits
    split
    · rename_i h
      exact ⟨n, [], h, rfl⟩
    · rename_i h
      obtain ⟨d, t, hd, ht⟩ :=
        ih (n / 10) (Nat.div_lt_self (by omega) (by omega))
      exact ⟨d, t ++ [digitChar (n % 10)], hd, by rw [ht]; rfl⟩

theorem str_data_append (s t : String) : (s ++ t).data = s.data ++ t.data := by
  cases s; cases t; rfl

theorem str_ext {s t : String} (h : s.data = t.data) : s = t := by
  cases s
  cases t
  exact congrArg String.mk h

/-- `%d` rendering is injective on Go ints. -/
theorem intDecimal_inj {i j : Int} (h : intDecimal i = intDecimal j) :
    i = j := by
  unfold intDecimal at h
  by_cases hi : i < 0 <;> by_cases hj : j < 0 <;> simp only [hi, hj,
    if_pos, if_neg, if_true, if_false] at h
  · have hd := congrArg String.data h
    rw [str_data_append, str_data_append] at hd
    have : natDigits (-i).toNat = natDigits (-j).toNat :=
      List.append_cancel_left hd
    have := natDigits_inj this
    omega
  · exfalso
    have hd := congrArg String.data h
    rw [str_data_append] at hd
    obtain ⟨d, t, hdlt, hnd⟩ := natDigits_head j.toNat
    rw [hnd] at hd
    have : '-' = digitChar d := by
      have := congrArg List.head? hd
      simpa using this
    exact digitChar_ne_dash d hdlt this.symm
  · exfalso
    have hd := congrArg String.data h
    rw [str_data_append] at hd
    obtain ⟨d, t, hdlt, hnd⟩ := natDigits_head i.toNat
    rw [hnd] at hd
    have : digitChar d = '-' := by
      have := congrArg List.head? hd
      simpa using this
    exact digitChar_ne_dash d hdlt this
  · have hd := congrArg String.data h
    have : natDigits i.toNat = natDigits j.toNat := hd
    have := natDigits_inj this
    omega

/-- Panels with distinct identifiers have distinct artifact paths. -/
theorem imgFilePath_inj (tmpDir : String) (p q : Panel)
    (h : imgFilePath tmpDir p = imgFilePath tmpDir q) : p.id = q.id := by
  unfold imgFilePath at h
  have hd := congrArg String.data h
  rw [str_data_append, str_data_append, str_data_append, str_data_append,
    str_data_append, str_data_append] at hd
  have h1 := List.append_cancel_left hd
  have h2 := List.append_cancel_right h1
  have h3 := List.append_cancel_left h2
  exact intDecimal_inj (str_ext h3)

/-- C9: the artifact path of a panel is a pure function of the scratch-area
root and the panel identifier only — two panels with the same identifier get
the same path whatever their titles, rows or kinds — and panels with
distinct identifiers map to distinct paths, so concurrent workers write to
disjoint files. -/
theorem imgFilePath_deterministic_disjoint (tmpDir : String) (p q : Panel) :
    (p.id = q.id → imgFilePath tmpDir p = imgFilePath tmpDir q) ∧
    (p.id ≠ q.id → imgFilePath tmpDir p ≠ imgFilePath tmpDir q) := by
  constructor
  · intro h
    unfold imgFilePath
    rw [h]
  · intro h hbad
    exact h (imgFilePath_inj tmpDir p q hbad)

/-- C9 witness: two panels with identical metadata except the identifier get
different paths; two panels that differ in everything except the identifier
get the same path. -/
theorem imgFilePath_deterministic_disjoint_witness :
    imgFilePath "tmp/u" samplePanel ≠ imgFilePath "tmp/u" ⟨2, "p", "r", false⟩ ∧
    imgFilePath "tmp/u" samplePanel = imgFilePath "tmp/u" ⟨1, "x", "y", true⟩ :=
  ⟨(imgFilePath_deterministic_disjoint "tmp/u" samplePanel
      ⟨2, "p", "r", false⟩).2 (by decide),
    (imgFilePath_deterministic_disjoint "tmp/u" samplePanel
      ⟨1, "x", "y", true⟩).1 rfl⟩

end GrafanaCollector
